import Mathlib

/-!
Signatures sidebar of evince, `shell/ev-sidebar-signatures.c`

A shallow embedding of the row-building code of the signatures sidebar and of
the two callbacks that drive it.  The `GtkTreeStore` is a forest of rows, a
`GtkTreeIter` is the path of a row in that forest, and every function that
writes to the store takes the store and returns the new one.
-/

namespace Evince

/-! ## Data model -/

/-- The four properties `job_finished_callback` reads from an `EvSignature`
with `g_object_get`.  A `gchar *` that may be `NULL` is an `Option String`. -/
structure EvSignature where
  signer_name : Option String
  signature_valid : Bool
  signer_identity_known : Bool
  signature_time : Option String
deriving DecidableEq, Repr

/-- One row of the store, a value for each column of the `COL_*` enumeration
(`gtk_tree_store_new (N_COLUMNS, G_TYPE_STRING, G_TYPE_BOOLEAN, G_TYPE_STRING,
G_TYPE_BOOLEAN)`).  A string column that was not set holds `NULL`. -/
structure Row where
  col_icon : Option String
  col_has_icon : Bool
  col_sign_text : Option String
  col_make_bold : Bool
deriving DecidableEq, Repr

/-- A row of the store together with its child rows, in display order. -/
inductive Node where
  | mk (row : Row) (children : List Node)
deriving Repr

/-- The row store: the ordered list of top-level rows. -/
abbrev GtkTreeStore := List Node

/-- An iterator names a row by its path from the top level. -/
abbrev GtkTreeIter := List Nat

/-! ## Library functions used by the file -/

/-- The `_()` of `glib/gi18n.h` with no message catalogue installed: the
message itself. -/
def gettext (msgid : String) : String := msgid

/-- Stock icon identifiers of `gtk/gtkstock.h`. -/
def GTK_STOCK_OK : String := "gtk-ok"

/-- Stock icon used for a negative answer. -/
def GTK_STOCK_NO : String := "gtk-no"

/-- Stock icon used for the invalid signature. -/
def GTK_STOCK_STOP : String := "gtk-stop"

/-- Stock icon used for warnings. -/
def GTK_STOCK_DIALOG_WARNING : String := "gtk-dialog-warning"

/-- Expansion of a format whose only conversions are `%s` and `%%`: the
flag tells that the previous character was an unconsumed `%`.  Each `%s` is
replaced by the argument and every other character is copied. -/
def formatS (s : List Char) : Bool → List Char → List Char
  | false, [] => []
  | true, [] => ['%']
  | false, c :: rest =>
    if c = '%' then formatS s true rest else c :: formatS s false rest
  | true, c :: rest =>
    if c = 's' then s ++ formatS s false rest
    else if c = '%' then '%' :: formatS s false rest
    else '%' :: c :: formatS s false rest

/-- The call `g_strdup_printf (fmt, s)` with one non-`NULL` string argument. -/
def g_strdup_printf (fmt : String) (s : String) : String :=
  String.mk (formatS s.data false fmt.data)

/-- Child list found at a path (`[]` is the top level). -/
def childrenAt : GtkTreeIter → List Node → List Node
  | [], l => l
  | i :: p, l =>
    match l.get? i with
    | some (Node.mk _ ch) => childrenAt p ch
    | none => []

/-- Index at which `g_node_insert` puts a new child among `n` siblings: a
negative position or one past the end appends. -/
def insertPos (position : Int) (n : Nat) : Nat :=
  if position < 0 ∨ (n : Int) < position then n else position.toNat

/-- Insert `x` before index `k` of a sibling list (at the end when `k` is the
length or more). -/
def insertNode : Nat → Node → List Node → List Node
  | 0, x, l => x :: l
  | _ + 1, x, [] => [x]
  | k + 1, x, y :: l => y :: insertNode k x l

/-- Apply `f` to the `i`-th node of a sibling list. -/
def updateNode (f : Node → Node) : Nat → List Node → List Node
  | _, [] => []
  | 0, x :: l => f x :: l
  | k + 1, x :: l => x :: updateNode f k l

/-- Insert `x` at index `k` of the child list found at a path. -/
def insertUnder : GtkTreeIter → Nat → Node → List Node → List Node
  | [], k, x, l => insertNode k x l
  | i :: p, k, x, l =>
    updateNode (fun n => match n with
      | Node.mk r ch => Node.mk r (insertUnder p k x ch)) i l

/-- The call `gtk_tree_store_insert_with_values (model, &iter, parent,
position, ...)`: a new childless row holding the given column values is put
among the children of `parent` (the top level for `NULL`), and `iter` is set to
the new row. -/
def gtk_tree_store_insert_with_values (model : GtkTreeStore)
    (parent : Option GtkTreeIter) (position : Int) (values : Row) :
    GtkTreeStore × GtkTreeIter :=
  let path := parent.getD []
  let k := insertPos position (childrenAt path model).length
  (insertUnder path k (Node.mk values []) model, path ++ [k])

/-! ## The row builders -/

/-- Transcription of `ev_sidebar_signatures_tree_add_problem`. -/
def ev_sidebar_signatures_tree_add_problem (model : GtkTreeStore) : GtkTreeStore :=
  let problem_text := gettext "Problem getting this signature"
  let problem_icon := GTK_STOCK_DIALOG_WARNING
  let details_text := gettext "The file could be corrupted"
  let (model, parent) := gtk_tree_store_insert_with_values model none (-1)
    { col_sign_text := some problem_text, col_icon := some problem_icon,
      col_has_icon := true, col_make_bold := true }
  let (model, _details) := gtk_tree_store_insert_with_values model (some parent) (-1)
    { col_sign_text := some details_text, col_icon := none,
      col_has_icon := false, col_make_bold := false }
  model

/-- Transcription of `ev_sidebar_signatures_tree_add_sign_info`. -/
def ev_sidebar_signatures_tree_add_sign_info (model : GtkTreeStore)
    (signer_name : String) (is_valid_sign : Bool) (is_signer_known : Bool)
    (sign_time : Option String) : GtkTreeStore :=
  let (sign_valid_text, sign_valid_icon) :=
    if is_valid_sign then
      (gettext "Document has not  been modified since the signature was applied",
        GTK_STOCK_OK)
    else
      (gettext "Document was changed since the signature was applied", GTK_STOCK_NO)
  let (status_text, sign_ok_icon, signer_known_text, signer_known_icon) :=
    if is_valid_sign && is_signer_known then
      (gettext "Signature is valid", GTK_STOCK_OK,
        gettext "Signer's identity is known", GTK_STOCK_OK)
    else if is_valid_sign && !is_signer_known then
      (gettext "Signature has problems", GTK_STOCK_DIALOG_WARNING,
        gettext "Signer's identity is unknown", GTK_STOCK_NO)
    else
      (gettext "Signature is invalid", GTK_STOCK_STOP,
        gettext "Signer's identity wasn't checked", GTK_STOCK_NO)
  let time_text :=
    match sign_time with
    | some t => t
    | none => gettext "Time not available"
  let signed_by := g_strdup_printf (gettext "Signed by: %s") signer_name
  let (model, parent) := gtk_tree_store_insert_with_values model none (-1)
    { col_sign_text := some signed_by, col_icon := some sign_ok_icon,
      col_has_icon := true, col_make_bold := true }
  let (model, conclusion) := gtk_tree_store_insert_with_values model (some parent) (-1)
    { col_sign_text := some status_text, col_icon := none,
      col_has_icon := false, col_make_bold := false }
  let (model, _details) := gtk_tree_store_insert_with_values model (some conclusion) (-1)
    { col_sign_text := some sign_valid_text, col_has_icon := true,
      col_icon := some sign_valid_icon, col_make_bold := false }
  let (model, _details) := gtk_tree_store_insert_with_values model (some conclusion) (-1)
    { col_sign_text := some signer_known_text, col_has_icon := true,
      col_icon := some signer_known_icon, col_make_bold := false }
  let (model, _details) := gtk_tree_store_insert_with_values model (some conclusion) (-1)
    { col_sign_text := some time_text, col_icon := none,
      col_has_icon := false, col_make_bold := false }
  model

/-! ## The panel and its callbacks -/

/-- What the file asks of an `EvDocument`: the type check
`EV_IS_DOCUMENT_SIGNATURES` and `ev_document_signatures_has_signatures`. -/
structure EvDocument where
  uri : String
  is_document_signatures : Bool
  has_signatures : Bool
deriving DecidableEq, Repr

/-- The document model holds the current document, `NULL` when there is none. -/
structure EvDocumentModel where
  document : Option EvDocument
deriving DecidableEq, Repr

/-- A signatures job: the document it was made for and its result list
`job->signatures`, a `GList` whose nodes hold a signature or `NULL`. -/
structure EvJobSignatures where
  document : Option EvDocument
  signatures : List (Option EvSignature)
deriving DecidableEq, Repr

/-- Modelled from the spec: the priority enumeration of the job scheduler is
declared in `ev-job-scheduler.h`, outside this file; `EV_JOB_PRIORITY_NONE` is
the one the spec calls the lowest priority, given to any job that renders
nothing. -/
inductive EvJobPriority where
  | EV_JOB_PRIORITY_URGENT
  | EV_JOB_PRIORITY_HIGH
  | EV_JOB_PRIORITY_LOW
  | EV_JOB_PRIORITY_NONE
deriving DecidableEq, Repr

/-- The state the two callbacks act on: the row store of the panel
(`sidebar->priv->model`), the jobs whose `finished` signal is connected to
`job_finished_callback` with this panel as user data, and the jobs pushed to
the scheduler, oldest first. -/
structure EvSidebarSignatures where
  model : GtkTreeStore
  finished_handlers : List EvJobSignatures
  scheduler : List (EvJobSignatures × EvJobPriority)

/-- Transcription of `ev_document_model_get_document`. -/
def ev_document_model_get_document (model : EvDocumentModel) : Option EvDocument :=
  model.document

/-- The constructor `ev_job_signatures_new`: a job for the document with no
result yet. -/
def ev_job_signatures_new (document : Option EvDocument) : EvJobSignatures :=
  { document := document, signatures := [] }

/-- Transcription of `ev_sidebar_signatures_support_document`; the type check
fails on `NULL` and `&&` does not evaluate its right side then. -/
def ev_sidebar_signatures_support_document (document : Option EvDocument) : Bool :=
  match document with
  | none => false
  | some d => d.is_document_signatures && d.has_signatures

/-- The loop of `job_finished_callback` over `job->signatures`: it runs while
`l && l->data`, and adds to the store the rows of each signature it meets. -/
def job_finished_loop : List (Option EvSignature) → GtkTreeStore → GtkTreeStore
  | [], model => model
  | none :: _, model => model
  | some signature :: l, model =>
    match signature.signer_name with
    | none => job_finished_loop l (ev_sidebar_signatures_tree_add_problem model)
    | some signer_name =>
      job_finished_loop l
        (ev_sidebar_signatures_tree_add_sign_info model signer_name
          signature.signature_valid signature.signer_identity_known
          signature.signature_time)

/-- Transcription of `job_finished_callback`. -/
def job_finished_callback (job : EvJobSignatures) (sidebar : EvSidebarSignatures) :
    EvSidebarSignatures :=
  let model := sidebar.model
  { sidebar with model := job_finished_loop job.signatures model }

/-- The call `g_signal_connect (job, "finished", job_finished_callback,
sidebar_page)`. -/
def g_signal_connect_finished (job : EvJobSignatures) (sidebar : EvSidebarSignatures) :
    EvSidebarSignatures :=
  { sidebar with finished_handlers := sidebar.finished_handlers ++ [job] }

/-- The call `ev_job_scheduler_push_job (job, priority)`. -/
def ev_job_scheduler_push_job (job : EvJobSignatures) (priority : EvJobPriority)
    (sidebar : EvSidebarSignatures) : EvSidebarSignatures :=
  { sidebar with scheduler := sidebar.scheduler ++ [(job, priority)] }

/-- Transcription of `ev_sidebar_signatures_document_changed_cb`. -/
def ev_sidebar_signatures_document_changed_cb (model : EvDocumentModel)
    (sidebar_page : EvSidebarSignatures) : EvSidebarSignatures :=
  let document := ev_document_model_get_document model
  let job := ev_job_signatures_new document
  if !ev_sidebar_signatures_support_document document then
    sidebar_page
  else
    let sidebar_page := g_signal_connect_finished job sidebar_page
    ev_job_scheduler_push_job job EvJobPriority.EV_JOB_PRIORITY_NONE sidebar_page

/-! ## Reading a store -/

/-- Rows of a forest with the depth at which they sit, in display order. -/
def rowsAt : Nat → List Node → List (Nat × Row)
  | _, [] => []
  | d, Node.mk r ch :: l => (d, r) :: (rowsAt (d + 1) ch ++ rowsAt d l)

/-- The top-level subtrees `job_finished_callback` builds for one signature
when it is the whole result list and the store is empty. -/
def signature_rows (signature : EvSignature) : List Node :=
  job_finished_loop [some signature] []

/-! ## Facts about the store operations -/

theorem g_strdup_printf_signed_by (name : String) :
    g_strdup_printf "Signed by: %s" name = "Signed by: " ++ name := by
  have h : ("Signed by: %s" : String).data
      = ['S', 'i', 'g', 'n', 'e', 'd', ' ', 'b', 'y', ':', ' ', '%', 's'] := rfl
  simp only [g_strdup_printf, h]
  simp [formatS]
  rfl

theorem insertNode_length (x : Node) (l : List Node) :
    insertNode l.length x l = l ++ [x] := by
  induction l with
  | nil => rfl
  | cons y l ih => simp [insertNode, ih]

theorem insertPos_neg_one (n : Nat) : insertPos (-1) n = n := by
  simp [insertPos]

theorem childrenAt_last (l : List Node) (r : Row) (ch : List Node) (p : GtkTreeIter) :
    childrenAt (l.length :: p) (l ++ [Node.mk r ch]) = childrenAt p ch := by
  simp [childrenAt]

theorem updateNode_last (f : Node → Node) (l : List Node) (x : Node) :
    updateNode f l.length (l ++ [x]) = l ++ [f x] := by
  induction l with
  | nil => rfl
  | cons y l ih => simp [updateNode, ih]

theorem insertUnder_last (l : List Node) (r : Row) (ch : List Node) (p : GtkTreeIter)
    (k : Nat) (x : Node) :
    insertUnder (l.length :: p) k x (l ++ [Node.mk r ch])
      = l ++ [Node.mk r (insertUnder p k x ch)] := by
  simp [insertUnder, updateNode_last]

/-- The store after `ev_sidebar_signatures_tree_add_problem`. -/
theorem add_problem_eq (model : GtkTreeStore) :
    ev_sidebar_signatures_tree_add_problem model
      = model ++ [Node.mk
          { col_icon := some GTK_STOCK_DIALOG_WARNING, col_has_icon := true,
            col_sign_text := some "Problem getting this signature", col_make_bold := true }
          [Node.mk
            { col_icon := none, col_has_icon := false,
              col_sign_text := some "The file could be corrupted", col_make_bold := false }
            []]] := by
  simp [ev_sidebar_signatures_tree_add_problem, gtk_tree_store_insert_with_values,
    insertPos_neg_one, childrenAt, insertUnder, insertNode_length, updateNode_last,
    insertNode, gettext]

/-- The store after `ev_sidebar_signatures_tree_add_sign_info`. -/
theorem add_sign_info_eq (model : GtkTreeStore) (signer_name : String)
    (is_valid_sign is_signer_known : Bool) (sign_time : Option String) :
    ev_sidebar_signatures_tree_add_sign_info model signer_name is_valid_sign
        is_signer_known sign_time
      = model ++ [Node.mk
          { col_icon := some (if is_valid_sign && is_signer_known then GTK_STOCK_OK
              else if is_valid_sign then GTK_STOCK_DIALOG_WARNING else GTK_STOCK_STOP),
            col_has_icon := true,
            col_sign_text := some ("Signed by: " ++ signer_name), col_make_bold := true }
          [Node.mk
            { col_icon := none, col_has_icon := false,
              col_sign_text := some (if is_valid_sign && is_signer_known then
                  "Signature is valid"
                else if is_valid_sign then "Signature has problems"
                else "Signature is invalid"),
              col_make_bold := false }
            [Node.mk
              { col_icon := some (if is_valid_sign then GTK_STOCK_OK else GTK_STOCK_NO),
                col_has_icon := true,
                col_sign_text := some (if is_valid_sign then
                    "Document has not  been modified since the signature was applied"
                  else "Document was changed since the signature was applied"),
                col_make_bold := false } [],
             Node.mk
              { col_icon := some (if is_valid_sign && is_signer_known then GTK_STOCK_OK
                  else GTK_STOCK_NO),
                col_has_icon := true,
                col_sign_text := some (if is_valid_sign && is_signer_known then
                    "Signer's identity is known"
                  else if is_valid_sign then "Signer's identity is unknown"
                  else "Signer's identity wasn't checked"),
                col_make_bold := false } [],
             Node.mk
              { col_icon := none, col_has_icon := false,
                col_sign_text := some (sign_time.getD "Time not available"),
                col_make_bold := false } []]]] := by
  cases is_valid_sign <;> cases is_signer_known <;> cases sign_time <;>
    simp [ev_sidebar_signatures_tree_add_sign_info, gtk_tree_store_insert_with_values,
      insertPos_neg_one, childrenAt, insertUnder, insertNode_length, updateNode_last,
      insertNode, updateNode, gettext, g_strdup_printf_signed_by]

theorem rowsAt_append (d : Nat) (a b : List Node) :
    rowsAt d (a ++ b) = rowsAt d a ++ rowsAt d b := by
  induction a with
  | nil => simp [rowsAt]
  | cons x a ih =>
    cases x with
    | mk r ch => simp [rowsAt, ih]

/-- The loop only adds rows after those of the store it starts from. -/
theorem job_finished_loop_append (l : List (Option EvSignature)) (model : GtkTreeStore) :
    job_finished_loop l model = model ++ job_finished_loop l [] := by
  induction l generalizing model with
  | nil => simp [job_finished_loop]
  | cons x l ih =>
    cases x with
    | none => simp [job_finished_loop]
    | some signature =>
      cases hn : signature.signer_name with
      | none =>
        simp only [job_finished_loop, hn]
        rw [ih (ev_sidebar_signatures_tree_add_problem model),
          ih (ev_sidebar_signatures_tree_add_problem []), add_problem_eq model,
          add_problem_eq []]
        simp
      | some name =>
        simp only [job_finished_loop, hn]
        rw [ih (ev_sidebar_signatures_tree_add_sign_info model _ _ _ _),
          ih (ev_sidebar_signatures_tree_add_sign_info [] _ _ _ _), add_sign_info_eq model,
          add_sign_info_eq []]
        simp

/-- One more signature at the head of the list: its rows come first. -/
theorem job_finished_loop_cons (signature : EvSignature) (l : List (Option EvSignature))
    (model : GtkTreeStore) :
    job_finished_loop (some signature :: l) model
      = model ++ signature_rows signature ++ job_finished_loop l [] := by
  cases hn : signature.signer_name with
  | none =>
    simp only [signature_rows, job_finished_loop, hn]
    rw [job_finished_loop_append l, add_problem_eq model, add_problem_eq []]
    simp
  | some name =>
    simp only [signature_rows, job_finished_loop, hn]
    rw [job_finished_loop_append l, add_sign_info_eq model, add_sign_info_eq []]
    simp

/-- On a list with no `NULL` node the loop adds the rows of each signature, in
the order of the list. -/
theorem job_finished_loop_records (xs : List EvSignature) (model : GtkTreeStore) :
    job_finished_loop (xs.map some) model = model ++ xs.flatMap signature_rows := by
  induction xs generalizing model with
  | nil => simp [job_finished_loop]
  | cons x xs ih =>
    rw [List.map_cons, job_finished_loop_cons, ih []]
    simp

/-- The loop ends at the first node of the list that holds `NULL`: what
follows it adds no row. -/
theorem job_finished_loop_stops_at_null (xs : List EvSignature)
    (rest : List (Option EvSignature)) (model : GtkTreeStore) :
    job_finished_loop (xs.map some ++ none :: rest) model
      = job_finished_loop (xs.map some) model := by
  induction xs generalizing model with
  | nil => simp [job_finished_loop]
  | cons x xs ih =>
    cases hn : x.signer_name with
    | none =>
      simp only [List.map_cons, List.cons_append, job_finished_loop, hn]
      exact ih _
    | some name =>
      simp only [List.map_cons, List.cons_append, job_finished_loop, hn]
      exact ih _

/-! ## The scenarios of the specification, evaluated -/

theorem scenario_alice :
    job_finished_loop [some ⟨some "Alice", true, true, some "2020-01-01"⟩] []
      = [Node.mk ⟨some "gtk-ok", true, some "Signed by: Alice", true⟩
          [Node.mk ⟨none, false, some "Signature is valid", false⟩
            [Node.mk ⟨some "gtk-ok", true,
                some "Document has not  been modified since the signature was applied",
                false⟩ [],
             Node.mk ⟨some "gtk-ok", true, some "Signer's identity is known", false⟩ [],
             Node.mk ⟨none, false, some "2020-01-01", false⟩ []]]] := by
  rfl

theorem scenario_bob :
    job_finished_loop [some ⟨some "Bob", true, false, none⟩] []
      = [Node.mk ⟨some "gtk-dialog-warning", true, some "Signed by: Bob", true⟩
          [Node.mk ⟨none, false, some "Signature has problems", false⟩
            [Node.mk ⟨some "gtk-ok", true,
                some "Document has not  been modified since the signature was applied",
                false⟩ [],
             Node.mk ⟨some "gtk-no", true, some "Signer's identity is unknown", false⟩ [],
             Node.mk ⟨none, false, some "Time not available", false⟩ []]]] := by
  rfl

theorem scenario_no_name :
    job_finished_loop [some ⟨none, false, false, none⟩] []
      = [Node.mk ⟨some "gtk-dialog-warning", true, some "Problem getting this signature",
            true⟩
          [Node.mk ⟨none, false, some "The file could be corrupted", false⟩ []]] := by
  rfl

/-! ## The claims -/

/-- C1, as stated, fails: after a first job with one signature has completed,
the completion of a second job with one signature leaves two top-level
subtrees in the store, not the single one built for the second list. -/
theorem job_finished_callback_keeps_old_rows :
    (job_finished_callback
        { document := none, signatures := [some ⟨some "Bob", true, false, none⟩] }
        (job_finished_callback
          { document := none, signatures := [some ⟨some "Alice", true, true, none⟩] }
          { model := [], finished_handlers := [], scheduler := [] })).model
      ≠ job_finished_loop [some ⟨some "Bob", true, false, none⟩] [] := by
  intro h
  have hlen := congrArg List.length h
  simp [job_finished_callback, job_finished_loop, add_sign_info_eq] at hlen

/-- C1, amended: `job_finished_callback` changes nothing but the row store, and
the store it leaves is the prior store, kept whole and in order, followed by the
rows built for the signature list of the job; after two completions the store
holds the prior rows, then the rows of the first job, then those of the
second. -/
theorem job_finished_callback_appends (job job2 : EvJobSignatures)
    (sidebar : EvSidebarSignatures) :
    (job_finished_callback job sidebar).model
        = sidebar.model ++ job_finished_loop job.signatures [] ∧
      (job_finished_callback job sidebar).finished_handlers = sidebar.finished_handlers ∧
      (job_finished_callback job sidebar).scheduler = sidebar.scheduler ∧
      (job_finished_callback job2 (job_finished_callback job sidebar)).model
        = sidebar.model ++ job_finished_loop job.signatures []
            ++ job_finished_loop job2.signatures [] := by
  refine ⟨?_, rfl, rfl, ?_⟩
  · simp only [job_finished_callback]
    exact job_finished_loop_append _ _
  · simp only [job_finished_callback]
    rw [job_finished_loop_append job2.signatures, job_finished_loop_append job.signatures]

/-- C2: for a named record the status-row text and the icon of the top row are
fixed by the pair (valid, known), in three cases: valid and known, valid and
not known, not valid with either value of the known flag. -/
theorem sign_info_three_states (model : GtkTreeStore) (signer_name : String)
    (is_valid_sign is_signer_known : Bool) (sign_time : Option String) :
    ∃ top status details,
      ev_sidebar_signatures_tree_add_sign_info model signer_name is_valid_sign
          is_signer_known sign_time
        = model ++ [Node.mk top [Node.mk status details]] ∧
      (status.col_sign_text, top.col_icon)
        = (match is_valid_sign, is_signer_known with
          | true, true => (some "Signature is valid", some GTK_STOCK_OK)
          | true, false => (some "Signature has problems", some GTK_STOCK_DIALOG_WARNING)
          | false, _ => (some "Signature is invalid", some GTK_STOCK_STOP)) := by
  refine ⟨_, _, _, add_sign_info_eq model signer_name is_valid_sign is_signer_known
    sign_time, ?_⟩
  cases is_valid_sign <;> cases is_signer_known <;> rfl

/-- C3: for a named record exactly five rows are added, after the rows already
in the store: one top-level row with the text "Signed by: " followed by the
name, bold and with an icon; its only child, the status row; and under the
status row three childless rows, the validity, identity and time details in
that order. -/
theorem sign_info_tree_shape (model : GtkTreeStore) (signer_name : String)
    (is_valid_sign is_signer_known : Bool) (sign_time : Option String) :
    ∃ icon status validity identity time_row,
      ev_sidebar_signatures_tree_add_sign_info model signer_name is_valid_sign
          is_signer_known sign_time
        = model ++ [Node.mk
            { col_icon := some icon, col_has_icon := true,
              col_sign_text := some ("Signed by: " ++ signer_name), col_make_bold := true }
            [Node.mk status
              [Node.mk validity [], Node.mk identity [], Node.mk time_row []]]] ∧
      (status.col_sign_text = some "Signature is valid" ∨
        status.col_sign_text = some "Signature has problems" ∨
        status.col_sign_text = some "Signature is invalid") ∧
      (validity.col_sign_text
          = some "Document has not  been modified since the signature was applied" ∨
        validity.col_sign_text
          = some "Document was changed since the signature was applied") ∧
      (identity.col_sign_text = some "Signer's identity is known" ∨
        identity.col_sign_text = some "Signer's identity is unknown" ∨
        identity.col_sign_text = some "Signer's identity wasn't checked") ∧
      time_row.col_sign_text = some (sign_time.getD "Time not available") ∧
      (rowsAt 0 (ev_sidebar_signatures_tree_add_sign_info model signer_name is_valid_sign
          is_signer_known sign_time)).length = (rowsAt 0 model).length + 5 := by
  refine ⟨_, _, _, _, _, add_sign_info_eq model signer_name is_valid_sign is_signer_known
    sign_time, ?_, ?_, ?_, rfl, ?_⟩
  · cases is_valid_sign <;> cases is_signer_known <;> simp
  · cases is_valid_sign <;> simp
  · cases is_valid_sign <;> cases is_signer_known <;> simp
  · rw [add_sign_info_eq, rowsAt_append]
    simp [rowsAt]

/-- C4: a record with no signer name adds, whatever its three other fields
and whatever the store holds, the same two rows: a bold top-level row "Problem
getting this signature" with the warning icon and, as its only child, the row
"The file could be corrupted" with no icon and not bold. -/
theorem absent_name_problem_subtree (model : GtkTreeStore)
    (signature_valid signer_identity_known : Bool) (signature_time : Option String) :
    job_finished_loop
        [some ⟨none, signature_valid, signer_identity_known, signature_time⟩] model
      = model ++ [Node.mk
          { col_icon := some GTK_STOCK_DIALOG_WARNING, col_has_icon := true,
            col_sign_text := some "Problem getting this signature", col_make_bold := true }
          [Node.mk
            { col_icon := none, col_has_icon := false,
              col_sign_text := some "The file could be corrupted", col_make_bold := false }
            []]] := by
  simp only [job_finished_loop]
  exact add_problem_eq model

/-- C5: for a named record the identity detail, second child of the status
row, is "Signer's identity is known" with the OK icon when valid and known,
"Signer's identity is unknown" with the reject icon when valid and not known,
and "Signer's identity wasn't checked" with the reject icon when not valid,
for both values of the known flag. -/
theorem sign_info_identity_detail (model : GtkTreeStore) (signer_name : String)
    (is_valid_sign is_signer_known : Bool) (sign_time : Option String) :
    ∃ top status validity time_row,
      ev_sidebar_signatures_tree_add_sign_info model signer_name is_valid_sign
          is_signer_known sign_time
        = model ++ [Node.mk top [Node.mk status
            [validity,
             Node.mk
              (match is_valid_sign, is_signer_known with
                | true, true =>
                  { col_icon := some GTK_STOCK_OK, col_has_icon := true,
                    col_sign_text := some "Signer's identity is known",
                    col_make_bold := false }
                | true, false =>
                  { col_icon := some GTK_STOCK_NO, col_has_icon := true,
                    col_sign_text := some "Signer's identity is unknown",
                    col_make_bold := false }
                | false, _ =>
                  { col_icon := some GTK_STOCK_NO, col_has_icon := true,
                    col_sign_text := some "Signer's identity wasn't checked",
                    col_make_bold := false }) [],
             time_row]]] := by
  cases is_valid_sign <;> cases is_signer_known <;>
    exact ⟨_, _, _, _, add_sign_info_eq _ _ _ _ _⟩

/-- C6: for a named record the validity detail, first child of the status row,
is fixed by the valid flag alone: the text "Document has not  been modified
since the signature was applied" (written so in the source, with two blanks)
with the OK icon when valid, "Document was changed since the signature was
applied" with the reject icon when not.  Two calls with the same valid flag
give the same validity detail, whatever the stores, names, known flags and
times are. -/
theorem sign_info_validity_detail (is_valid_sign : Bool)
    (model model2 : GtkTreeStore) (signer_name signer_name2 : String)
    (is_signer_known is_signer_known2 : Bool) (sign_time sign_time2 : Option String) :
    ∃ validity top status identity time_row top2 status2 identity2 time_row2,
      validity = Node.mk
        (match is_valid_sign with
          | true =>
            { col_icon := some GTK_STOCK_OK, col_has_icon := true,
              col_sign_text :=
                some "Document has not  been modified since the signature was applied",
              col_make_bold := false }
          | false =>
            { col_icon := some GTK_STOCK_NO, col_has_icon := true,
              col_sign_text := some "Document was changed since the signature was applied",
              col_make_bold := false }) [] ∧
      ev_sidebar_signatures_tree_add_sign_info model signer_name is_valid_sign
          is_signer_known sign_time
        = model ++ [Node.mk top [Node.mk status [validity, identity, time_row]]] ∧
      ev_sidebar_signatures_tree_add_sign_info model2 signer_name2 is_valid_sign
          is_signer_known2 sign_time2
        = model2 ++ [Node.mk top2 [Node.mk status2 [validity, identity2, time_row2]]] := by
  cases is_valid_sign <;>
    exact ⟨_, _, _, _, _, _, _, _, _, rfl, add_sign_info_eq _ _ _ _ _,
      add_sign_info_eq _ _ _ _ _⟩

/-- C7: for a named record the time detail, third child of the status row, has
no icon, is not bold, and its text is the signature time when there is one and
"Time not available" when there is none, whatever the valid and known flags
are. -/
theorem sign_info_time_detail (model : GtkTreeStore) (signer_name : String)
    (is_valid_sign is_signer_known : Bool) (sign_time : Option String) :
    ∃ top status validity identity,
      ev_sidebar_signatures_tree_add_sign_info model signer_name is_valid_sign
          is_signer_known sign_time
        = model ++ [Node.mk top [Node.mk status
            [validity, identity,
             Node.mk
              { col_icon := none, col_has_icon := false,
                col_sign_text := some (match sign_time with
                  | some t => t
                  | none => "Time not available"),
                col_make_bold := false } []]]] := by
  cases sign_time <;> exact ⟨_, _, _, _, add_sign_info_eq _ _ _ _ _⟩

/-- C8: on a list of signature records the callback loop adds, after the rows
of the store, the subtree of each record in the order of the list, one
top-level subtree for each record; the rows for `xs ++ ys` are the rows for
`xs` followed by the rows for `ys`; and a record with no signer name in the
middle of a list puts its problem subtree between the unchanged rows of the
records before it and of those after it. -/
theorem job_finished_order_preserving (model : GtkTreeStore) (xs ys : List EvSignature)
    (r : EvSignature) (signature_valid signer_identity_known : Bool)
    (signature_time : Option String) :
    job_finished_loop (xs.map some) model = model ++ xs.flatMap signature_rows ∧
      (signature_rows r).length = 1 ∧
      job_finished_loop ((xs ++ ys).map some) []
        = job_finished_loop (xs.map some) [] ++ job_finished_loop (ys.map some) [] ∧
      job_finished_loop
          ((xs ++ ⟨none, signature_valid, signer_identity_known, signature_time⟩ :: ys).map
            some) model
        = model ++ xs.flatMap signature_rows
            ++ [Node.mk
                { col_icon := some GTK_STOCK_DIALOG_WARNING, col_has_icon := true,
                  col_sign_text := some "Problem getting this signature",
                  col_make_bold := true }
                [Node.mk
                  { col_icon := none, col_has_icon := false,
                    col_sign_text := some "The file could be corrupted",
                    col_make_bold := false }
                  []]]
            ++ ys.flatMap signature_rows := by
  refine ⟨job_finished_loop_records xs model, ?_, ?_, ?_⟩
  · cases hn : r.signer_name with
    | none => simp [signature_rows, job_finished_loop, hn, add_problem_eq]
    | some name => simp [signature_rows, job_finished_loop, hn, add_sign_info_eq]
  · rw [job_finished_loop_records, job_finished_loop_records, job_finished_loop_records]
    simp
  · rw [job_finished_loop_records]
    simp [signature_rows, job_finished_loop, add_problem_eq]

/-- C9: `ev_sidebar_signatures_document_changed_cb` never changes the row
store.  The support predicate holds exactly for a document that is
signature-capable and has signatures.  When it fails, no handler is connected
and nothing is pushed to the scheduler; when it holds, the job made for the
document is connected once and pushed once, with `EV_JOB_PRIORITY_NONE`. -/
theorem document_changed_effect (model : EvDocumentModel)
    (sidebar_page : EvSidebarSignatures) :
    (ev_sidebar_signatures_document_changed_cb model sidebar_page).model
        = sidebar_page.model ∧
      ev_sidebar_signatures_support_document model.document
        = (match model.document with
          | none => false
          | some d => d.is_document_signatures && d.has_signatures) ∧
      ((ev_sidebar_signatures_document_changed_cb model sidebar_page).finished_handlers,
          (ev_sidebar_signatures_document_changed_cb model sidebar_page).scheduler)
        = (match ev_sidebar_signatures_support_document model.document with
          | false => (sidebar_page.finished_handlers, sidebar_page.scheduler)
          | true =>
            (sidebar_page.finished_handlers ++ [ev_job_signatures_new model.document],
              sidebar_page.scheduler
                ++ [(ev_job_signatures_new model.document,
                      EvJobPriority.EV_JOB_PRIORITY_NONE)])) := by
  refine ⟨?_, rfl, ?_⟩
  · simp only [ev_sidebar_signatures_document_changed_cb, ev_document_model_get_document]
    cases ev_sidebar_signatures_support_document model.document <;> rfl
  · simp only [ev_sidebar_signatures_document_changed_cb, ev_document_model_get_document]
    cases ev_sidebar_signatures_support_document model.document <;> rfl

/-- C10: every row added by `ev_sidebar_signatures_tree_add_problem` and by
`ev_sidebar_signatures_tree_add_sign_info` has its has-icon flag set exactly
when an icon was given to it, and is bold exactly when it sits at the top
level. -/
theorem added_rows_consistent (model : GtkTreeStore) (signer_name : String)
    (is_valid_sign is_signer_known : Bool) (sign_time : Option String) :
    (∃ t, ev_sidebar_signatures_tree_add_problem model = model ++ [t] ∧
        ∀ p ∈ rowsAt 0 [t],
          (p.2.col_has_icon = true ↔ p.2.col_icon.isSome = true) ∧
            (p.2.col_make_bold = true ↔ p.1 = 0)) ∧
      (∃ t, ev_sidebar_signatures_tree_add_sign_info model signer_name is_valid_sign
            is_signer_known sign_time = model ++ [t] ∧
        ∀ p ∈ rowsAt 0 [t],
          (p.2.col_has_icon = true ↔ p.2.col_icon.isSome = true) ∧
            (p.2.col_make_bold = true ↔ p.1 = 0)) := by
  refine ⟨⟨_, add_problem_eq model, ?_⟩, ⟨_, add_sign_info_eq model signer_name
    is_valid_sign is_signer_known sign_time, ?_⟩⟩
  · intro p hp
    simp [rowsAt] at hp
    rcases hp with rfl | rfl <;> simp
  · intro p hp
    simp [rowsAt] at hp
    rcases hp with rfl | rfl | rfl | rfl | rfl <;> simp

end Evince
